import Mathlib

/-!
Verification of the `ls_service` message-dispatch runtime (`src/service.rs`).

The runtime is embedded shallowly: the futures-0.1 poll functions of the four
tasks become pure Lean functions over explicit state, the oneshot and mpsc
channels become explicit data (a oneshot is a record of its value and the
liveness of its two ends; an mpsc queue is the list of its buffered elements
plus a closed flag and a free-capacity counter), and a `Poll` value mirrors
`Result<Async<T>, E>`.
-/

set_option autoImplicit false

namespace LsService

/-! ## Codec-level data model (`lsp_rs` boundary)

The payload types (`ServerResponse`, `ResponseError`, `ServerRequest`,
`ServerNotification`, `ClientNotification`) are opaque to the dispatch
runtime; they are represented as wrapped naturals so that equality is
decidable. -/

structure ServerResponse where
  val : Nat
deriving DecidableEq

structure ResponseError where
  val : Nat
deriving DecidableEq

structure ServerRequest where
  val : Nat
deriving DecidableEq

structure ServerNotification where
  val : Nat
deriving DecidableEq

structure ClientNotification where
  val : Nat
deriving DecidableEq

/-- `std::io::Error`, opaque to the runtime. -/
structure IoError where
  code : Nat
deriving DecidableEq

/-- `ResponseMessage { id, result, error }` (instantiated at `ServerResponse`). -/
structure ResponseMessage where
  id : Int
  result : Option ServerResponse
  error : Option ResponseError
deriving DecidableEq

/-- `RequestMessage { id, method }`. -/
structure RequestMessage where
  id : Int
  method : ServerRequest
deriving DecidableEq

/-- `NotificationMessage { method }`, generic over the method payload. -/
structure NotificationMessage (α : Type) where
  method : α
deriving DecidableEq

/-- `IncomingServerMessage`: what the framed read stream yields. -/
inductive IncomingMessage where
  | Request (request : RequestMessage)
  | Notification (notification : NotificationMessage ServerNotification)
  | Response (response : ResponseMessage)
deriving DecidableEq

/-- `OutgoingServerMessage`: what the runtime writes. -/
inductive OutgoingMessage where
  | Response (response : ResponseMessage)
  | Notification (notification : NotificationMessage ClientNotification)
deriving DecidableEq

/-- `MessageEnvelope { headers, message }`; headers are a string map, built
empty by the Writer. -/
structure MessageEnvelope (α : Type) where
  headers : List (String × String)
  message : α
deriving DecidableEq

/-- `ServiceError` (`Rc<io::Error>` payloads collapse to `IoError`). -/
inductive ServiceError where
  | ReadError (error : IoError)
  | WriteError (error : IoError)
  | Unknown
deriving DecidableEq

/-- `Result<Async<A>, E>`, the futures-0.1 poll result. -/
inductive Poll (α : Type) (ε : Type) where
  | ready (value : α)
  | notReady
  | failed (e : ε)
deriving DecidableEq

/-! ## The oneshot reply channel (`futures::sync::oneshot`)

A channel is represented by its stored value plus the liveness of the two
ends.  `Sender::complete` stores the value when the receiver is still alive
and silently drops it otherwise; it has no failure path.  `Receiver::poll`
yields the stored value, is not ready while the sender is alive, and errors
(`Canceled`) once the sender is gone without a value. -/

structure Oneshot where
  value : Option ResponseMessage
  senderAlive : Bool
  receiverAlive : Bool
deriving DecidableEq

/-- A freshly created `oneshot::channel()`. -/
def Oneshot.fresh : Oneshot :=
  { value := none, senderAlive := true, receiverAlive := true }

/-- `oneshot::Sender::complete`: deliver when the receiver is alive, silently
absorb the value otherwise.  Total: there is no error or panic path. -/
def Oneshot.complete (c : Oneshot) (m : ResponseMessage) : Oneshot :=
  if c.receiverAlive then { c with value := some m, senderAlive := false }
  else { c with senderAlive := false }

/-- `oneshot::Receiver::poll`. -/
def Oneshot.recvPoll (c : Oneshot) : Poll ResponseMessage Unit :=
  match c.value with
  | some m => .ready m
  | none => if c.senderAlive then .notReady else .failed ()

/-! ## `ResponseOutput` (service.rs lines 215-244)

The struct holds `request_id` and the send end of the reply oneshot; the
channel state is passed explicitly since the embedding is pure. -/

structure ResponseOutput where
  request_id : Int
deriving DecidableEq

/-- `ResponseOutput::complete` (line 237): forwards the built message to
`result_channel.complete`. -/
def ResponseOutput.complete (_o : ResponseOutput) (response : ResponseMessage)
    (channel : Oneshot) : Oneshot :=
  channel.complete response

/-- `ResponseOutput::send_result` (line 217). -/
def ResponseOutput.send_result (o : ResponseOutput) (result : ServerResponse)
    (channel : Oneshot) : Oneshot :=
  o.complete { id := o.request_id, result := some result, error := none } channel

/-- `ResponseOutput::send_error` (line 227). -/
def ResponseOutput.send_error (o : ResponseOutput) (error : ResponseError)
    (channel : Oneshot) : Oneshot :=
  o.complete { id := o.request_id, result := none, error := some error } channel

/-! ## Shutdown signal (`Service` lines 140-147, 371-393; `ShutdownFuture`
lines 191-213)

The shutdown oneshot carries `Result<(), ServiceError>`.  Its shared state is
`pending`, `resolved r` once the single sender completed it with `r`, or
`dropped` if the sender was dropped without completing. -/

inductive ShutdownResult where
  | ok
  | err (e : ServiceError)
deriving DecidableEq

inductive ShutdownState where
  | pending
  | resolved (r : ShutdownResult)
  | dropped
deriving DecidableEq

/-- `Service`: the `RefCell<Option<Sender>>` slot together with the shared
state of the shutdown channel it feeds. -/
structure Service where
  shutdown_send : Option Unit
  shutdown_state : ShutdownState
deriving DecidableEq

/-- The service as built by `Service::new` (line 277): sender present,
channel pending. -/
def Service.initial : Service :=
  { shutdown_send := some (), shutdown_state := .pending }

/-- `Service::shutdown` (lines 371-381): take the sender; if present,
complete with `Ok(())`, else do nothing. -/
def Service.shutdown (s : Service) : Service :=
  match s.shutdown_send with
  | some _ => { shutdown_send := none, shutdown_state := .resolved .ok }
  | none => s

/-- `Service::shutdown_error` (lines 383-393): take the sender; if present,
complete with `Err(error)`, else do nothing. -/
def Service.shutdown_error (s : Service) (error : ServiceError) : Service :=
  match s.shutdown_send with
  | some _ => { shutdown_send := none, shutdown_state := .resolved (.err error) }
  | none => s

/-- One call to either shutdown entry point. -/
inductive ShutdownCall where
  | normal
  | withError (e : ServiceError)
deriving DecidableEq

/-- Dispatch a `ShutdownCall` to the corresponding `Service` method. -/
def Service.applyCall (s : Service) : ShutdownCall → Service
  | .normal => s.shutdown
  | .withError e => s.shutdown_error e

/-- A sequence of shutdown calls, first to last. -/
def Service.runCalls (s : Service) (calls : List ShutdownCall) : Service :=
  calls.foldl Service.applyCall s

/-- The result the first successful call records. -/
def ShutdownCall.outcome : ShutdownCall → ShutdownResult
  | .normal => .ok
  | .withError e => .err e

/-- `impl Future for ShutdownFuture::poll` (lines 196-211): the shared
receiver yields the recorded result, errs once the sender was dropped
(mapped to `ServiceError::Unknown`), and a recorded `Err(e)` is surfaced as
`Err(e.clone())`. -/
def ShutdownFuture.poll : ShutdownState → Poll Unit ServiceError
  | .pending => .notReady
  | .resolved .ok => .ready ()
  | .resolved (.err e) => .failed e
  | .dropped => .failed .Unknown

/-! ## ResponseWriter (service.rs lines 164-170, 483-564)

State: the buffered contents of ResponseQueue (a list of reply oneshots,
FIFO) with a closed flag, the two slots `response_future` and `response`,
and the WriteQueue send end (closed flag plus free capacity).  One call to
`poll` loops until it returns; the messages it pushed into WriteQueue are
accumulated in order in `sent`. -/

inductive RWStatus where
  | suspended
  | taskFailed (e : ServiceError)
deriving DecidableEq

structure RWResult where
  response_future : Option Oneshot
  response : Option OutgoingMessage
  queue : List Oneshot
  sent : List OutgoingMessage
  status : RWStatus
deriving DecidableEq

/-- Prefix a message that was pushed to WriteQueue before the rest of the
poll ran. -/
def RWResult.withSent (m : OutgoingMessage) (r : RWResult) : RWResult :=
  { r with sent := m :: r.sent }

/-- `impl Future for ResponseWriter::poll` (lines 551-562), one full call.

Arguments mirror the struct fields plus the channel ends:
`rf` = `response_future`, `resp` = `response`, `wFree` = free slots in
WriteQueue, `wClosed` = WriteQueue receiver gone, `qClosed` = ResponseQueue
senders gone, `queue` = buffered ResponseQueue contents.

The branches are, in source order:
* `poll_for_response` (lines 512-526): a ready reply goes into the
  `response` slot; `NotReady` suspends keeping `response_future`; a dropped
  sender is cancellation and falls through to the next queue entry;
* `write_response` (lines 528-542): `start_send` to WriteQueue, keeping
  the message and suspending on backpressure, `Unknown` if closed;
* `poll_for_response_future` (lines 495-510): pop the next reply oneshot,
  `Unknown` when the queue closed, suspend when empty but open. -/
def ResponseWriter.poll (rf : Option Oneshot) (resp : Option OutgoingMessage)
    (wFree : Nat) (qClosed : Bool) (wClosed : Bool) (queue : List Oneshot) :
    RWResult :=
  match rf with
  | some c =>
    match c.recvPoll with
    | .notReady =>
      { response_future := some c, response := resp, queue := queue,
        sent := [], status := .suspended }
    | .ready m =>
      ResponseWriter.poll none (some (OutgoingMessage.Response m)) wFree qClosed wClosed queue
    | .failed _ =>
      ResponseWriter.poll none resp wFree qClosed wClosed queue
  | none =>
    match resp with
    | some r =>
      if wClosed then
        { response_future := none, response := some r, queue := queue,
          sent := [], status := .taskFailed .Unknown }
      else
        match wFree with
        | 0 =>
          { response_future := none, response := some r, queue := queue,
            sent := [], status := .suspended }
        | wRest + 1 =>
          RWResult.withSent r (ResponseWriter.poll none none wRest qClosed wClosed queue)
    | none =>
      match queue with
      | [] =>
        if qClosed then
          { response_future := none, response := none, queue := [],
            sent := [], status := .taskFailed .Unknown }
        else
          { response_future := none, response := none, queue := [],
            sent := [], status := .suspended }
      | f :: rest =>
        ResponseWriter.poll (some f) none wFree qClosed wClosed rest
termination_by
  4 * queue.length + (if rf.isSome then 2 else 0) + (if resp.isSome then 1 else 0)
decreasing_by
  all_goals simp <;> omega

/-! ### Reply outcomes

A reply oneshot is resolved once the handler has either completed it
(`value = some m`) or dropped its `ResponseOutput` (`senderAlive = false`).
`replyFrame` is the frame the ResponseWriter forwards for it: the response
when answered, nothing when cancelled. -/

def Oneshot.resolved (c : Oneshot) : Bool :=
  c.value.isSome || !c.senderAlive

def replyFrame (c : Oneshot) : Option OutgoingMessage :=
  c.value.map OutgoingMessage.Response

/-! ## MessageReader (service.rs lines 154-162, 397-481)

The inbound framed stream is the list of messages it will yield next, plus
what it does after that list is exhausted (`StreamEnd`).  The handler is a
function from the request to what it eventually does with its
`ResponseOutput`; the reply oneshot retained by the Reader is therefore the
channel state that handler action eventually produces. -/

inductive StreamEnd where
  | eof
  | moreLater
  | ioFailure (e : IoError)
deriving DecidableEq

inductive HandlerAction where
  | answer (value : ServerResponse)
  | answerError (e : ResponseError)
  | dropOutput
deriving DecidableEq

/-- The reply oneshot for request `r`, in the state the handler action
eventually leaves it: the fresh channel of the dispatch (line 460) after the
handler ran `send_result` / `send_error` on the `ResponseOutput { request_id
:= r.id }` built at line 461, or after it dropped the output. -/
def requestChannel (r : RequestMessage) : HandlerAction → Oneshot
  | .answer v => (ResponseOutput.mk r.id).send_result v Oneshot.fresh
  | .answerError e => (ResponseOutput.mk r.id).send_error e Oneshot.fresh
  | .dropOutput => { Oneshot.fresh with senderAlive := false }

inductive ReaderStatus where
  | suspended
  | taskFailed (e : ServiceError)
  | panicked
deriving DecidableEq

structure ReaderResult where
  current_request : Option Oneshot
  pushed : List Oneshot
  inbound : List IncomingMessage
  inboundPollSlots : List (Option Oneshot)
  status : ReaderStatus
deriving DecidableEq

/-- Record an entry pushed to ResponseQueue before the rest of the poll. -/
def ReaderResult.withPushed (c : Oneshot) (r : ReaderResult) : ReaderResult :=
  { r with pushed := c :: r.pushed }

/-- Record an inbound-stream poll (and the value of `current_request` at
that moment) that happened before the rest of the poll. -/
def ReaderResult.withInboundPoll (slot : Option Oneshot) (r : ReaderResult) : ReaderResult :=
  { r with inboundPollSlots := slot :: r.inboundPollSlots }

/-- `impl Future for MessageReader::poll` (lines 447-479), one full call.

Arguments: `cr` = `current_request`, `qFree` = free slots in ResponseQueue,
`qClosed` = ResponseQueue receiver gone, `act` = the handler behaviour,
`inbound`/`se` = the framed read stream.

The branches, in source order:
* `push_response_future` (lines 424-438): `start_send` of the retained
  reply read half into ResponseQueue; backpressure stores it back into
  `current_request` and suspends; a closed queue is `Unknown`;
* `next_message` (lines 411-422): end-of-stream is `Unknown`, a transport
  error is `ReadError`;
* dispatch (lines 454-477): a request builds a fresh reply oneshot and a
  `ResponseOutput`, hands them to the handler, and retains the read half in
  `current_request`; a notification is handed to the handler; an inbound
  `Response` hits `unimplemented!()` and panics. -/
def MessageReader.poll (cr : Option Oneshot) (qFree : Nat) (qClosed : Bool)
    (act : RequestMessage → HandlerAction) (inbound : List IncomingMessage)
    (se : StreamEnd) : ReaderResult :=
  match cr with
  | some c =>
    if qClosed then
      { current_request := none, pushed := [], inbound := inbound,
        inboundPollSlots := [], status := .taskFailed .Unknown }
    else
      match qFree with
      | 0 =>
        { current_request := some c, pushed := [], inbound := inbound,
          inboundPollSlots := [], status := .suspended }
      | qRest + 1 =>
        ReaderResult.withPushed c (MessageReader.poll none qRest qClosed act inbound se)
  | none =>
    match inbound with
    | [] =>
      match se with
      | .eof =>
        ReaderResult.withInboundPoll none
          { current_request := none, pushed := [], inbound := [],
            inboundPollSlots := [], status := .taskFailed .Unknown }
      | .moreLater =>
        ReaderResult.withInboundPoll none
          { current_request := none, pushed := [], inbound := [],
            inboundPollSlots := [], status := .suspended }
      | .ioFailure e =>
        ReaderResult.withInboundPoll none
          { current_request := none, pushed := [], inbound := [],
            inboundPollSlots := [], status := .taskFailed (.ReadError e) }
    | m :: rest =>
      ReaderResult.withInboundPoll none
        (match m with
          | .Request r =>
            MessageReader.poll (some (requestChannel r (act r))) qFree qClosed act rest se
          | .Notification _ =>
            MessageReader.poll none qFree qClosed act rest se
          | .Response _ =>
            { current_request := none, pushed := [], inbound := rest,
              inboundPollSlots := [], status := .panicked })
termination_by
  2 * inbound.length + (if cr.isSome then 1 else 0)
decreasing_by
  all_goals simp <;> omega

/-- The requests among a list of inbound messages, in arrival order. -/
def requestsOf (msgs : List IncomingMessage) : List RequestMessage :=
  msgs.filterMap (fun m =>
    match m with
    | .Request r => some r
    | _ => none)

/-- Whether any inbound `Response` occurs (the unimplemented path). -/
def hasInboundResponse (msgs : List IncomingMessage) : Bool :=
  msgs.any (fun m =>
    match m with
    | .Response _ => true
    | _ => false)

/-! ## Writer (service.rs lines 315-331)

`spawn_message_writer` maps each WriteQueue element into a
`MessageEnvelope` with empty headers and drives `io_write.send_all` over the
mapped stream.  One `poll` of `send_all` drains every buffered element into
the sink (the transport is modelled as accepting every frame), completes
when the stream ends, and is not ready while the queue is open but empty. -/

inductive WriterStatus where
  | completed
  | suspended
deriving DecidableEq

/-- One poll of the `send_all` writer future over the buffered WriteQueue
contents (`wqClosed` = all send ends dropped). -/
def MessageWriter.poll :
    List OutgoingMessage → Bool → List (MessageEnvelope OutgoingMessage) × WriterStatus
  | [], wqClosed => ([], if wqClosed then .completed else .suspended)
  | m :: rest, wqClosed =>
    let step := MessageWriter.poll rest wqClosed
    ({ headers := [], message := m } :: step.1, step.2)

/-! ## The supervisor's task wrapper (service.rs lines 345-365)

`spawn_handler_future` wraps a task future `f` as
`f.map_err(shutdown_error).select(shutdown_read.then(Ok))`.  A futures-0.1
`Select` polls its first future, and only if that is not ready polls the
second; so one poll of the wrapped task polls the task itself first, and
only then checks the shutdown signal. -/

/-- `shutdown_read.clone().then(|_| Ok(()))` is ready exactly when the
shared shutdown future is no longer pending. -/
def shutdownNotifReady : ShutdownState → Bool
  | .pending => false
  | .resolved _ => true
  | .dropped => true

/-- The spawned writer task: the WriteQueue read half, the transport sink
contents, and whether the `select` has resolved (after which tokio-core
drops the task and never polls it again). -/
structure WriterTask where
  write_queue : List OutgoingMessage
  wqClosed : Bool
  transport : List (MessageEnvelope OutgoingMessage)
  finished : Bool
deriving DecidableEq

/-- One poll of the spawned (select-wrapped) writer task. -/
def WriterTask.selectPoll (shutdown : ShutdownState) (t : WriterTask) : WriterTask :=
  if t.finished then t
  else
    let step := MessageWriter.poll t.write_queue t.wqClosed
    let t2 : WriterTask :=
      { write_queue := [], wqClosed := t.wqClosed,
        transport := t.transport ++ step.1, finished := false }
    match step.2 with
    | .completed => { t2 with finished := true }
    | .suspended =>
      if shutdownNotifReady shutdown then { t2 with finished := true } else t2

/-! ## CommandHandler (service.rs lines 149-152, 566-630) -/

inductive ServiceCommand where
  | SendNotification (n : ClientNotification)
  | Shutdown
deriving DecidableEq

inductive CHStatus where
  | suspended
  | taskFailed (e : ServiceError)
deriving DecidableEq

structure CHResult where
  service : Service
  commands : List ServiceCommand
  current_notification : Option OutgoingMessage
  sent : List OutgoingMessage
  status : CHStatus
deriving DecidableEq

/-- Prefix a notification pushed to WriteQueue before the rest of the
poll. -/
def CHResult.withSent (m : OutgoingMessage) (r : CHResult) : CHResult :=
  { r with sent := m :: r.sent }

/-- `impl Future for CommandHandler::poll` (lines 585-629), one full call.

Branches in source order:
* flush `current_notification` into WriteQueue (lines 587-601), keeping it
  and suspending on backpressure, `Unknown` if WriteQueue closed;
* pop the next command (lines 603-616), `Unknown` when CommandQueue closed;
* `Shutdown` calls `service_handle.shutdown()` and returns `NotReady`
  without touching the remaining commands (lines 619-623);
* `SendNotification` wraps the payload as an outgoing notification into
  `current_notification` and loops (lines 624-626). -/
def CommandHandler.poll (svc : Service) (curNotif : Option OutgoingMessage)
    (wFree : Nat) (wClosed : Bool) (cmdClosed : Bool)
    (commands : List ServiceCommand) : CHResult :=
  match curNotif with
  | some n =>
    if wClosed then
      { service := svc, commands := commands, current_notification := some n,
        sent := [], status := .taskFailed .Unknown }
    else
      match wFree with
      | 0 =>
        { service := svc, commands := commands, current_notification := some n,
          sent := [], status := .suspended }
      | wRest + 1 =>
        CHResult.withSent n (CommandHandler.poll svc none wRest wClosed cmdClosed commands)
  | none =>
    match commands with
    | [] =>
      if cmdClosed then
        { service := svc, commands := [], current_notification := none,
          sent := [], status := .taskFailed .Unknown }
      else
        { service := svc, commands := [], current_notification := none,
          sent := [], status := .suspended }
    | cmd :: rest =>
      match cmd with
      | .Shutdown =>
        { service := svc.shutdown, commands := rest, current_notification := none,
          sent := [], status := .suspended }
      | .SendNotification n =>
        CommandHandler.poll svc
          (some (OutgoingMessage.Notification { method := n }))
          wFree wClosed cmdClosed rest
termination_by
  2 * commands.length + (if curNotif.isSome then 1 else 0)
decreasing_by
  all_goals simp <;> omega

/-- `ServiceHandle::shutdown` (lines 252-259): spawn a fire-and-forget task
that pushes `ServiceCommand::Shutdown` into CommandQueue, ignoring send
errors.  Its effect on the queue contents. -/
def ServiceHandle.shutdown (commands : List ServiceCommand) : List ServiceCommand :=
  commands ++ [ServiceCommand.Shutdown]

/-- The composed response path for one Reader poll followed by one
ResponseWriter poll and one Writer poll, on a fresh service: the Reader
consumes `msgs` and fills ResponseQueue, the ResponseWriter drains it into
WriteQueue, the Writer forwards WriteQueue to the transport. -/
def pipelineTransport (act : RequestMessage → HandlerAction)
    (msgs : List IncomingMessage) (qFree wFree : Nat) :
    List (MessageEnvelope OutgoingMessage) :=
  (MessageWriter.poll
    (ResponseWriter.poll none none wFree false false
      (MessageReader.poll none qFree false act msgs .moreLater).pushed).sent
    false).1

/-! ## Helper lemmas -/

theorem Service.applyCall_taken {s : Service} (h : s.shutdown_send = none)
    (c : ShutdownCall) : s.applyCall c = s := by
  cases c <;> simp [Service.applyCall, Service.shutdown, Service.shutdown_error, h]

theorem Service.runCalls_taken {s : Service} (h : s.shutdown_send = none)
    (calls : List ShutdownCall) : s.runCalls calls = s := by
  induction calls with
  | nil => rfl
  | cons c cs ih =>
    show Service.runCalls (s.applyCall c) cs = s
    rw [Service.applyCall_taken h c, ih]

theorem requestChannel_resolved (r : RequestMessage) (a : HandlerAction) :
    (requestChannel r a).resolved = true := by
  cases a <;>
    simp [requestChannel, ResponseOutput.send_result, ResponseOutput.send_error,
      ResponseOutput.complete, Oneshot.complete, Oneshot.fresh, Oneshot.resolved]

theorem rwPoll_cons (f : Oneshot) (rest : List Oneshot) (wFree : Nat)
    (qClosed wClosed : Bool) :
    ResponseWriter.poll none none wFree qClosed wClosed (f :: rest)
      = ResponseWriter.poll (some f) none wFree qClosed wClosed rest := by
  conv_lhs => rw [ResponseWriter.poll]

theorem rwPoll_answered_step (f : Oneshot) (m : ResponseMessage)
    (rest : List Oneshot) (wFree : Nat) (qClosed : Bool) (hv : f.value = some m) :
    ResponseWriter.poll (some f) none (wFree + 1) qClosed false rest
      = RWResult.withSent (OutgoingMessage.Response m)
          (ResponseWriter.poll none none wFree qClosed false rest) := by
  rw [ResponseWriter.poll]
  simp [Oneshot.recvPoll, hv]
  rw [ResponseWriter.poll]
  simp

theorem rwPoll_cancelled_step (f : Oneshot) (resp : Option OutgoingMessage)
    (rest : List Oneshot) (wFree : Nat) (qClosed wClosed : Bool)
    (hv : f.value = none) (hs : f.senderAlive = false) :
    ResponseWriter.poll (some f) resp wFree qClosed wClosed rest
      = ResponseWriter.poll none resp wFree qClosed wClosed rest := by
  rw [ResponseWriter.poll]
  simp [Oneshot.recvPoll, hv, hs]

theorem rwPoll_pending_step (f : Oneshot) (resp : Option OutgoingMessage)
    (rest : List Oneshot) (wFree : Nat) (qClosed wClosed : Bool)
    (hv : f.value = none) (hs : f.senderAlive = true) :
    ResponseWriter.poll (some f) resp wFree qClosed wClosed rest
      = { response_future := some f, response := resp, queue := rest,
          sent := [], status := .suspended } := by
  rw [ResponseWriter.poll]
  simp [Oneshot.recvPoll, hv, hs]

theorem rwPoll_sent_of_resolved (queue : List Oneshot) :
    ∀ (wFree : Nat) (qClosed : Bool),
    (∀ c ∈ queue, c.resolved = true) → queue.length ≤ wFree →
    (ResponseWriter.poll none none wFree qClosed false queue).sent
      = queue.filterMap replyFrame := by
  induction queue with
  | nil =>
    intro wFree qClosed _ _
    rw [ResponseWriter.poll]
    cases qClosed <;> simp
  | cons f rest ih =>
    intro wFree qClosed hres hw
    rw [rwPoll_cons]
    cases hv : f.value with
    | some m =>
      obtain ⟨w, rfl⟩ : ∃ w, wFree = w + 1 := by
        cases wFree with
        | zero => simp at hw
        | succ w => exact ⟨w, rfl⟩
      rw [rwPoll_answered_step f m rest w qClosed hv]
      have hrest : rest.length ≤ w := by
        simpa [Nat.succ_le_succ_iff] using hw
      simp [RWResult.withSent, ih w qClosed (fun c hc => hres c (List.mem_cons_of_mem f hc)) hrest,
        replyFrame, hv]
    | none =>
      have hsa : f.senderAlive = false := by
        have := hres f (List.mem_cons_self f rest)
        simpa [Oneshot.resolved, hv] using this
      rw [rwPoll_cancelled_step f none rest wFree qClosed false hv hsa]
      have hrest : rest.length ≤ wFree := le_trans (Nat.le_succ _) hw
      simp [ih wFree qClosed (fun c hc => hres c (List.mem_cons_of_mem f hc)) hrest,
        replyFrame, hv]

theorem rwPoll_blocked_by_pending (pre : List Oneshot) :
    ∀ (post : List Oneshot) (p : Oneshot) (wFree : Nat) (qClosed : Bool),
    p.value = none → p.senderAlive = true →
    (∀ c ∈ pre, c.resolved = true) → pre.length ≤ wFree →
    (ResponseWriter.poll none none wFree qClosed false (pre ++ p :: post)).sent
      = pre.filterMap replyFrame := by
  induction pre with
  | nil =>
    intro post p wFree qClosed hv hs _ _
    rw [List.nil_append, rwPoll_cons, rwPoll_pending_step p none post wFree qClosed false hv hs]
    simp
  | cons f rest ih =>
    intro post p wFree qClosed hv hs hres hw
    rw [List.cons_append, rwPoll_cons]
    cases hfv : f.value with
    | some m =>
      obtain ⟨w, rfl⟩ : ∃ w, wFree = w + 1 := by
        cases wFree with
        | zero => simp at hw
        | succ w => exact ⟨w, rfl⟩
      rw [rwPoll_answered_step f m (rest ++ p :: post) w qClosed hfv]
      have hrest : rest.length ≤ w := by
        simpa [Nat.succ_le_succ_iff] using hw
      simp [RWResult.withSent,
        ih post p w qClosed hv hs (fun c hc => hres c (List.mem_cons_of_mem f hc)) hrest,
        replyFrame, hfv]
    | none =>
      have hsa : f.senderAlive = false := by
        have := hres f (List.mem_cons_self f rest)
        simpa [Oneshot.resolved, hfv] using this
      rw [rwPoll_cancelled_step f none (rest ++ p :: post) wFree qClosed false hfv hsa]
      have hrest : rest.length ≤ wFree := le_trans (Nat.le_succ _) hw
      simp [ih post p wFree qClosed hv hs (fun c hc => hres c (List.mem_cons_of_mem f hc)) hrest,
        replyFrame, hfv]

theorem writerPoll_frames (queue : List OutgoingMessage) (wqClosed : Bool) :
    (MessageWriter.poll queue wqClosed).1
      = queue.map (fun m => { headers := [], message := m }) := by
  induction queue with
  | nil => rfl
  | cons m rest ih => simp [MessageWriter.poll, ih]

@[simp]
theorem ReaderResult.withInboundPoll_pushed (s : Option Oneshot) (r : ReaderResult) :
    (ReaderResult.withInboundPoll s r).pushed = r.pushed := rfl

@[simp]
theorem ReaderResult.withInboundPoll_status (s : Option Oneshot) (r : ReaderResult) :
    (ReaderResult.withInboundPoll s r).status = r.status := rfl

@[simp]
theorem ReaderResult.withInboundPoll_slots (s : Option Oneshot) (r : ReaderResult) :
    (ReaderResult.withInboundPoll s r).inboundPollSlots = s :: r.inboundPollSlots := rfl

@[simp]
theorem ReaderResult.withPushed_pushed (c : Oneshot) (r : ReaderResult) :
    (ReaderResult.withPushed c r).pushed = c :: r.pushed := rfl

@[simp]
theorem ReaderResult.withPushed_status (c : Oneshot) (r : ReaderResult) :
    (ReaderResult.withPushed c r).status = r.status := rfl

@[simp]
theorem ReaderResult.withPushed_slots (c : Oneshot) (r : ReaderResult) :
    (ReaderResult.withPushed c r).inboundPollSlots = r.inboundPollSlots := rfl

@[simp]
theorem RWResult.withSent_sent (m : OutgoingMessage) (r : RWResult) :
    (RWResult.withSent m r).sent = m :: r.sent := rfl

theorem readerPoll_some_step (c : Oneshot) (qFree : Nat) (qClosed : Bool)
    (act : RequestMessage → HandlerAction) (inbound : List IncomingMessage)
    (se : StreamEnd) :
    MessageReader.poll (some c) qFree qClosed act inbound se
      = if qClosed then
          { current_request := none, pushed := [], inbound := inbound,
            inboundPollSlots := [], status := .taskFailed .Unknown }
        else
          match qFree with
          | 0 =>
            { current_request := some c, pushed := [], inbound := inbound,
              inboundPollSlots := [], status := .suspended }
          | qRest + 1 =>
            ReaderResult.withPushed c (MessageReader.poll none qRest qClosed act inbound se) := by
  rw [MessageReader.poll.eq_def]

theorem readerPoll_slots_none_of_none (inbound : List IncomingMessage) :
    ∀ (qFree : Nat) (qClosed : Bool) (act : RequestMessage → HandlerAction) (se : StreamEnd),
    ((MessageReader.poll none qFree qClosed act inbound se).inboundPollSlots).all
      (fun s => s == none) = true := by
  induction inbound with
  | nil =>
    intro qFree qClosed act se
    rw [MessageReader.poll.eq_def]
    cases se <;> rfl
  | cons m rest ih =>
    intro qFree qClosed act se
    cases m with
    | Request r =>
      rw [MessageReader.poll]
      simp only [ReaderResult.withInboundPoll_slots, List.all_cons, Bool.and_eq_true,
        beq_self_eq_true, true_and]
      rw [readerPoll_some_step]
      cases qClosed with
      | true => rfl
      | false =>
        cases qFree with
        | zero => rfl
        | succ q =>
          simp only [ReaderResult.withPushed_slots, Bool.false_eq_true, if_false]
          exact ih q false act se
    | Notification n =>
      rw [MessageReader.poll]
      simp only [ReaderResult.withInboundPoll_slots, List.all_cons, Bool.and_eq_true,
        beq_self_eq_true, true_and]
      exact ih qFree qClosed act se
    | Response r =>
      rw [MessageReader.poll]
      rfl

theorem readerPoll_pushed_of_requests (msgs : List IncomingMessage) :
    ∀ (qFree : Nat) (act : RequestMessage → HandlerAction),
    hasInboundResponse msgs = false → (requestsOf msgs).length ≤ qFree →
    (MessageReader.poll none qFree false act msgs .moreLater).pushed
      = (requestsOf msgs).map (fun r => requestChannel r (act r))
    ∧ (MessageReader.poll none qFree false act msgs .moreLater).status = .suspended := by
  induction msgs with
  | nil =>
    intro qFree act _ _
    rw [MessageReader.poll]
    exact ⟨rfl, rfl⟩
  | cons m rest ih =>
    intro qFree act hnr hlen
    cases m with
    | Request r =>
      obtain ⟨q, rfl⟩ : ∃ q, qFree = q + 1 := by
        cases qFree with
        | zero => simp [requestsOf] at hlen
        | succ q => exact ⟨q, rfl⟩
      rw [MessageReader.poll]
      have hnr2 : hasInboundResponse rest = false := by
        simpa [hasInboundResponse] using hnr
      have hlen2 : (requestsOf rest).length ≤ q := by
        simpa [requestsOf, Nat.succ_le_succ_iff] using hlen
      obtain ⟨hp, hs⟩ := ih q act hnr2 hlen2
      rw [readerPoll_some_step]
      simp [requestsOf, hp, hs]
    | Notification n =>
      rw [MessageReader.poll]
      have hnr2 : hasInboundResponse rest = false := by
        simpa [hasInboundResponse] using hnr
      have hlen2 : (requestsOf rest).length ≤ qFree := by
        simpa [requestsOf] using hlen
      obtain ⟨hp, hs⟩ := ih qFree act hnr2 hlen2
      simp [requestsOf, hp, hs]
    | Response r =>
      simp [hasInboundResponse] at hnr

/-! ## Claims -/

/-- C1: FIFO response ordering.  For an inbound sequence read by the Reader
(with no unsupported inbound `Response`, and queue capacities covering the
run), the frames forwarded to the transport are exactly the replies to the
requests in arrival order, skipping every request whose `ResponseOutput`
was dropped unanswered; and while the reply at some queue position is still
unresolved, nothing for any later position has been written. -/
theorem fifo_response_order (act : RequestMessage → HandlerAction)
    (msgs : List IncomingMessage) (qFree wFree : Nat)
    (h1 : hasInboundResponse msgs = false)
    (h2 : (requestsOf msgs).length ≤ qFree)
    (h3 : (requestsOf msgs).length ≤ wFree) :
    pipelineTransport act msgs qFree wFree
      = (requestsOf msgs).filterMap (fun r =>
          (replyFrame (requestChannel r (act r))).map
            (fun f => ({ headers := [], message := f } : MessageEnvelope OutgoingMessage)))
    ∧ ∀ (pre post : List Oneshot) (p : Oneshot) (wf : Nat),
        p.value = none → p.senderAlive = true →
        (∀ c ∈ pre, c.resolved = true) → pre.length ≤ wf →
        (ResponseWriter.poll none none wf false false (pre ++ p :: post)).sent
          = pre.filterMap replyFrame := by
  constructor
  · unfold pipelineTransport
    obtain ⟨hp, -⟩ := readerPoll_pushed_of_requests msgs qFree act h1 h2
    rw [hp]
    rw [rwPoll_sent_of_resolved _ wFree false ?hres ?hlen]
    case hres =>
      intro c hc
      obtain ⟨r, _, rfl⟩ := List.mem_map.1 hc
      exact requestChannel_resolved r (act r)
    case hlen => simpa using h3
    rw [writerPoll_frames, List.filterMap_map, List.map_filterMap]
    simp [Function.comp]
  · intro pre post p wf hv hsl hres hw
    exact rwPoll_blocked_by_pending pre post p wf false hv hsl hres hw

/-- Witness for C1 at a three-request stream whose second request is
dropped unanswered. -/
theorem fifo_response_order_witness :
    pipelineTransport
        (fun r => if r.id = 2 then HandlerAction.dropOutput else HandlerAction.answer ⟨7⟩)
        [IncomingMessage.Request { id := 1, method := ⟨0⟩ },
         IncomingMessage.Request { id := 2, method := ⟨0⟩ },
         IncomingMessage.Request { id := 3, method := ⟨0⟩ }] 8 8
      = (requestsOf
          [IncomingMessage.Request { id := 1, method := ⟨0⟩ },
           IncomingMessage.Request { id := 2, method := ⟨0⟩ },
           IncomingMessage.Request { id := 3, method := ⟨0⟩ }]).filterMap (fun r =>
          (replyFrame (requestChannel r
              (if r.id = 2 then HandlerAction.dropOutput else HandlerAction.answer ⟨7⟩))).map
            (fun f => ({ headers := [], message := f } : MessageEnvelope OutgoingMessage))) :=
  (fifo_response_order _ _ 8 8 (by decide) (by decide) (by decide)).1

/-- C2: `send_error e` completes the reply channel with
`{ id := request_id, result := none, error := some e }`, `send_result v`
with `{ id := request_id, result := some v, error := none }`, and every
reply message a handler action records has exactly one of result/error
set. -/
theorem send_result_send_error_frames (o : ResponseOutput) (v : ServerResponse)
    (e : ResponseError) (c : Oneshot) (h : c.receiverAlive = true) :
    (o.send_result v c).value = some { id := o.request_id, result := some v, error := none }
    ∧ (o.send_error e c).value = some { id := o.request_id, result := none, error := some e }
    ∧ ∀ (r : RequestMessage) (a : HandlerAction) (m : ResponseMessage),
        (requestChannel r a).value = some m → m.result.isSome ≠ m.error.isSome := by
  refine ⟨?_, ?_, ?_⟩
  · simp [ResponseOutput.send_result, ResponseOutput.complete, Oneshot.complete, h]
  · simp [ResponseOutput.send_error, ResponseOutput.complete, Oneshot.complete, h]
  · intro r a m hm
    cases a <;>
      simp [requestChannel, ResponseOutput.send_result, ResponseOutput.send_error,
        ResponseOutput.complete, Oneshot.complete, Oneshot.fresh] at hm <;>
      simp [← hm]

/-- Witness for C2 on a fresh reply channel. -/
theorem send_result_send_error_frames_witness :
    ((ResponseOutput.mk 9).send_result ⟨1⟩ Oneshot.fresh).value
      = some { id := 9, result := some ⟨1⟩, error := none } :=
  (send_result_send_error_frames ⟨9⟩ ⟨1⟩ ⟨2⟩ Oneshot.fresh rfl).1

/-- C3: a reply oneshot whose sender was dropped unanswered makes the
ResponseWriter emit nothing for that slot and behave exactly as if it
advanced directly past it, while an answered slot always yields its frame —
so dropping the output is the only way a request gets no reply frame. -/
theorem response_writer_skips_cancelled (c a : Oneshot) (m : ResponseMessage)
    (resp : Option OutgoingMessage) (wFree : Nat) (qClosed wClosed : Bool)
    (queue : List Oneshot)
    (hc : c.value = none) (hs : c.senderAlive = false) (ha : a.value = some m) :
    ResponseWriter.poll (some c) resp wFree qClosed wClosed queue
      = ResponseWriter.poll none resp wFree qClosed wClosed queue
    ∧ (ResponseWriter.poll (some a) none (wFree + 1) qClosed false queue).sent
      = OutgoingMessage.Response m
          :: (ResponseWriter.poll none none wFree qClosed false queue).sent := by
  constructor
  · exact rwPoll_cancelled_step c resp queue wFree qClosed wClosed hc hs
  · rw [rwPoll_answered_step a m queue wFree qClosed ha]
    simp

/-- Witness for C3 with a cancelled and an answered reply channel. -/
theorem response_writer_skips_cancelled_witness :
    ResponseWriter.poll (some { value := none, senderAlive := false, receiverAlive := true })
        none 4 false false []
      = ResponseWriter.poll none none 4 false false [] :=
  (response_writer_skips_cancelled
    { value := none, senderAlive := false, receiverAlive := true }
    { value := some { id := 1, result := some ⟨1⟩, error := none }, senderAlive := false,
      receiverAlive := true }
    { id := 1, result := some ⟨1⟩, error := none }
    none 4 false false [] rfl rfl rfl).1

/-- C4: in every reachable Reader state, the inbound stream is only ever
polled with an empty `current_request` slot — the retained reply-read half
is pushed into ResponseQueue before any further inbound message is
consumed. -/
theorem reader_never_reads_while_holding (cr : Option Oneshot) (qFree : Nat)
    (qClosed : Bool) (act : RequestMessage → HandlerAction)
    (inbound : List IncomingMessage) (se : StreamEnd) :
    ((MessageReader.poll cr qFree qClosed act inbound se).inboundPollSlots).all
      (fun s => s == none) = true := by
  cases cr with
  | none => exact readerPoll_slots_none_of_none inbound qFree qClosed act se
  | some c =>
    rw [readerPoll_some_step]
    cases qClosed with
    | true => rfl
    | false =>
      cases qFree with
      | zero => rfl
      | succ q =>
        simp only [ReaderResult.withPushed_slots, Bool.false_eq_true, if_false]
        exact readerPoll_slots_none_of_none inbound q false act se

/-- Witness for C4 on a concrete reader run that holds a reply half. -/
theorem reader_never_reads_while_holding_witness :
    ((MessageReader.poll (some Oneshot.fresh) 4 false (fun _ => HandlerAction.dropOutput)
        [IncomingMessage.Request { id := 1, method := ⟨0⟩ },
         IncomingMessage.Notification { method := ⟨2⟩ }] .moreLater).inboundPollSlots).all
      (fun s => s == none) = true :=
  reader_never_reads_while_holding (some Oneshot.fresh) 4 false
    (fun _ => HandlerAction.dropOutput)
    [IncomingMessage.Request { id := 1, method := ⟨0⟩ },
     IncomingMessage.Notification { method := ⟨2⟩ }] .moreLater

/-- C5: the first of `shutdown` / `shutdown_error` takes the single sender
and records its outcome; every later call observes `None` and is a no-op,
so the first outcome is never overwritten. -/
theorem shutdown_first_outcome_wins (c : ShutdownCall) (rest : List ShutdownCall) :
    (Service.initial.runCalls (c :: rest)).shutdown_state = .resolved c.outcome
    ∧ (Service.initial.runCalls (c :: rest)).shutdown_send = none
    ∧ ∀ (s : Service) (e : ServiceError), s.shutdown_send = none →
        s.shutdown = s ∧ s.shutdown_error e = s := by
  have h1 : Service.initial.applyCall c
      = { shutdown_send := none, shutdown_state := .resolved c.outcome } := by
    cases c <;> rfl
  have h2 : Service.initial.runCalls (c :: rest)
      = { shutdown_send := none, shutdown_state := .resolved c.outcome } := by
    show Service.runCalls (Service.initial.applyCall c) rest = _
    rw [h1, Service.runCalls_taken rfl]
  refine ⟨by rw [h2], by rw [h2], ?_⟩
  intro s e hsend
  exact ⟨by simp [Service.shutdown, hsend], by simp [Service.shutdown_error, hsend]⟩

/-- Witness for C5: a successful shutdown followed by a late error call. -/
theorem shutdown_first_outcome_wins_witness :
    (Service.initial.runCalls
        [ShutdownCall.normal, ShutdownCall.withError ServiceError.Unknown]).shutdown_state
      = ShutdownState.resolved .ok :=
  (shutdown_first_outcome_wins .normal [.withError ServiceError.Unknown]).1

/-- C6 is false as stated: with a frame still buffered in WriteQueue when
ShutdownFuture is already resolved, the next poll of the spawned writer
task still writes that frame, because the `select` polls the wrapped task
before the shutdown future. -/
theorem write_after_shutdown_resolved_cex :
    (WriterTask.selectPoll (.resolved .ok)
        { write_queue := [OutgoingMessage.Notification { method := ⟨7⟩ }],
          wqClosed := false, transport := [], finished := false }).transport
      = [{ headers := [], message := OutgoingMessage.Notification { method := ⟨7⟩ } }]
    ∧ ¬ (WriterTask.selectPoll (.resolved .ok)
        { write_queue := [OutgoingMessage.Notification { method := ⟨7⟩ }],
          wqClosed := false, transport := [], finished := false }).transport
      = ([] : List (MessageEnvelope OutgoingMessage)) := by
  constructor <;> simp [WriterTask.selectPoll, MessageWriter.poll, shutdownNotifReady]

/-- C6 (amended): once ShutdownFuture has resolved, the next poll of the
spawned task observes it and the task terminates; a terminated task is a
no-op thereafter, so no frame is written after that final poll — though a
frame already buffered may still be flushed during it. -/
theorem task_terminates_once_shutdown_resolved (st : ShutdownState) (t : WriterTask)
    (h : shutdownNotifReady st = true) :
    (WriterTask.selectPoll st t).finished = true
    ∧ ∀ u : WriterTask, u.finished = true → WriterTask.selectPoll st u = u := by
  constructor
  · cases hf : t.finished with
    | true => simp [WriterTask.selectPoll, hf]
    | false =>
      cases hms : (MessageWriter.poll t.write_queue t.wqClosed).2 with
      | completed => simp [WriterTask.selectPoll, hf, hms]
      | suspended => simp [WriterTask.selectPoll, hf, hms, h]
  · intro u hu
    simp [WriterTask.selectPoll, hu]

/-- Witness for C6 (amended) at a resolved shutdown and an idle task. -/
theorem task_terminates_once_shutdown_resolved_witness :
    (WriterTask.selectPoll (.resolved .ok)
        { write_queue := [], wqClosed := false, transport := [], finished := false }).finished
      = true :=
  (task_terminates_once_shutdown_resolved (.resolved .ok)
    { write_queue := [], wqClosed := false, transport := [], finished := false } rfl).1

/-- C7 is false as stated: an inbound `Response` does not yield the fatal
`ServiceError::Unknown` — the Reader panics instead. -/
theorem inbound_response_cex :
    ¬ (MessageReader.poll none 4 false (fun _ => HandlerAction.dropOutput)
        [IncomingMessage.Response { id := 0, result := none, error := none }]
        .moreLater).status
      = ReaderStatus.taskFailed ServiceError.Unknown := by
  rw [MessageReader.poll]
  simp [ReaderResult.withInboundPoll]

/-- C7 (amended): the Reader never silently ignores an inbound `Response`:
dispatching one panics on the `unimplemented!` path, aborting the task
without queueing anything and without yielding `ServiceError::Unknown` (so
this path does not resolve ShutdownFuture through `shutdown_error`). -/
theorem inbound_response_panics (r : ResponseMessage) (rest : List IncomingMessage)
    (act : RequestMessage → HandlerAction) (qFree : Nat) (se : StreamEnd) :
    (MessageReader.poll none qFree false act (IncomingMessage.Response r :: rest) se).status
      = ReaderStatus.panicked
    ∧ (MessageReader.poll none qFree false act (IncomingMessage.Response r :: rest) se).pushed
      = [] := by
  rw [MessageReader.poll]
  exact ⟨rfl, rfl⟩

/-- Witness for C7 (amended) at a concrete inbound response. -/
theorem inbound_response_panics_witness :
    (MessageReader.poll none 4 false (fun _ => HandlerAction.dropOutput)
        [IncomingMessage.Response { id := 0, result := none, error := none }]
        .moreLater).status
      = ReaderStatus.panicked :=
  (inbound_response_panics { id := 0, result := none, error := none } []
    (fun _ => HandlerAction.dropOutput) 4 .moreLater).1

/-- C8: dequeuing the `Shutdown` scheduled by `ServiceHandle::shutdown`
makes the CommandHandler call the supervisor's `shutdown()` — resolving
ShutdownFuture with `Ok(())` when no error took the sender first — and
return without touching the remaining commands; the shutdown-notified
`select` then terminates the task, so no further command is processed. -/
theorem shutdown_command_processed (svc : Service) (rest : List ServiceCommand)
    (wFree : Nat) (hs : svc.shutdown_send = some ()) :
    (CommandHandler.poll svc none wFree false false
        (ServiceHandle.shutdown [] ++ rest)).service.shutdown_state
      = ShutdownState.resolved .ok
    ∧ (CommandHandler.poll svc none wFree false false
        (ServiceHandle.shutdown [] ++ rest)).commands = rest
    ∧ (CommandHandler.poll svc none wFree false false
        (ServiceHandle.shutdown [] ++ rest)).sent = []
    ∧ (CommandHandler.poll svc none wFree false false
        (ServiceHandle.shutdown [] ++ rest)).status = .suspended
    ∧ shutdownNotifReady
        (CommandHandler.poll svc none wFree false false
          (ServiceHandle.shutdown [] ++ rest)).service.shutdown_state = true := by
  have hq : ServiceHandle.shutdown [] ++ rest = ServiceCommand.Shutdown :: rest := rfl
  rw [hq, CommandHandler.poll]
  simp [Service.shutdown, hs, shutdownNotifReady]

/-- Witness for C8 on a fresh service with one trailing command. -/
theorem shutdown_command_processed_witness :
    (CommandHandler.poll Service.initial none 2 false false
        (ServiceHandle.shutdown [] ++ [ServiceCommand.SendNotification ⟨3⟩])).service.shutdown_state
      = ShutdownState.resolved .ok :=
  (shutdown_command_processed Service.initial [ServiceCommand.SendNotification ⟨3⟩] 2 rfl).1

/-- C9: a shutdown sender dropped uncompleted makes `ShutdownFuture::poll`
yield `Err(Unknown)` rather than stay pending; a recorded `Ok` polls ready,
a recorded `Err e` polls as that error, and ready happens exactly on a
recorded `Ok`.  Clones poll the same shared state, hence resolve
identically. -/
theorem shutdown_future_poll_spec :
    ShutdownFuture.poll .dropped = .failed .Unknown
    ∧ ShutdownFuture.poll (.resolved .ok) = .ready ()
    ∧ (∀ e, ShutdownFuture.poll (.resolved (.err e)) = .failed e)
    ∧ ∀ st, ShutdownFuture.poll st = .ready () ↔ st = .resolved .ok := by
  refine ⟨rfl, rfl, fun e => rfl, ?_⟩
  intro st
  cases st with
  | pending => simp [ShutdownFuture.poll]
  | dropped => simp [ShutdownFuture.poll]
  | resolved r => cases r <;> simp [ShutdownFuture.poll]

/-- Witness for C9 at the dropped-sender state. -/
theorem shutdown_future_poll_spec_witness :
    ShutdownFuture.poll .dropped = .failed .Unknown :=
  shutdown_future_poll_spec.1

/-- C10: `send_result` / `send_error` are total — no error, panic, or
blocking path — in every channel state; when the reply-read half was
already dropped, the completion is silently absorbed: no value is stored
and only the sender liveness changes. -/
theorem send_terminal_total (o : ResponseOutput) (v : ServerResponse)
    (e : ResponseError) (c : Oneshot) :
    (o.send_result v c).senderAlive = false
    ∧ (o.send_error e c).senderAlive = false
    ∧ (c.receiverAlive = false → o.send_result v c = { c with senderAlive := false })
    ∧ (c.receiverAlive = false → o.send_error e c = { c with senderAlive := false }) := by
  refine ⟨?_, ?_, ?_, ?_⟩
  · cases hr : c.receiverAlive <;>
      simp [ResponseOutput.send_result, ResponseOutput.complete, Oneshot.complete, hr]
  · cases hr : c.receiverAlive <;>
      simp [ResponseOutput.send_error, ResponseOutput.complete, Oneshot.complete, hr]
  · intro hr
    simp [ResponseOutput.send_result, ResponseOutput.complete, Oneshot.complete, hr]
  · intro hr
    simp [ResponseOutput.send_error, ResponseOutput.complete, Oneshot.complete, hr]

/-- Witness for C10: completing a reply whose read half is gone. -/
theorem send_terminal_total_witness :
    (ResponseOutput.mk 5).send_result ⟨0⟩
        { value := none, senderAlive := true, receiverAlive := false }
      = { value := none, senderAlive := false, receiverAlive := false } :=
  (send_terminal_total ⟨5⟩ ⟨0⟩ ⟨0⟩
    { value := none, senderAlive := true, receiverAlive := false }).2.2.1 rfl

end LsService
